import Mathlib

/-!
Verification of the `Masscan` scan task of `recon-pipeline`
(`src/recon/masscan.py`), a Luigi `ExternalProgramTask`.

The embedding below follows the Python source directly:

* A `Masscan` value carries the task's parameters (`rate`, `interface`,
  `target_file`, `top_ports`, `ports`).  `top_ports` is an `Int` (it is a
  `luigi.IntParameter` and the source guards against negative values);
  the other parameters are strings.
* `Masscan.masscan_output` is the output path set in `__init__`:
  `f"masscan.{self.target_file}.json"`.
* `Masscan.program_args` is the port-spec resolver and command builder.
  Python truthiness is translated exactly: a string is truthy iff it is
  non-empty, an integer is truthy iff it is non-zero.  `exit(n)` becomes
  `Except.error n`; the happy path returns the argument vector together
  with the (possibly mutated) task state, since the source assigns
  `self.ports` and `self.top_ports` in the `top_ports` branch.
* The port catalogs `top_tcp_ports` / `top_udp_ports` are imported by the
  source from `recon.config`, which is not part of the sources at hand;
  they are therefore passed as explicit list parameters, as is the path of
  the upstream target list (`self.input().get("target_list").path`, a
  value supplied by the Luigi framework from the `TargetList` dependency).
  Python's clamping slice `xs[:n]` becomes `List.take`.
-/

namespace ReconPipeline

/-- Parameter/state record of the `Masscan` Luigi task
(`src/recon/masscan.py`).  `ports` and `top_ports` are mutable in the
source (`program_args` reassigns them), so they are part of the state. -/
structure Masscan where
  rate : String
  interface : String
  target_file : String
  top_ports : Int
  ports : String
  deriving Repr, DecidableEq

/-- `self.masscan_output = f"masscan.{self.target_file}.json"`, set in
`Masscan.__init__`. -/
def Masscan.masscan_output (m : Masscan) : String :=
  "masscan." ++ m.target_file ++ ".json"

/-- `",".join(str(x) for x in l)` for a list of port numbers. -/
def joinPorts (l : List Nat) : String :=
  String.intercalate "," (l.map (fun x => toString x))

/-- `Masscan.program_args` from `src/recon/masscan.py`, lines 60-106:

```
if self.ports and self.top_ports:            exit(1)
if not self.ports and not self.top_ports:    exit(2)
if self.top_ports < 0:                       exit(3)
if self.top_ports:
    top_tcp_ports_str = ",".join(str(x) for x in top_tcp_ports[: self.top_ports])
    top_udp_ports_str = ",".join(str(x) for x in top_udp_ports[: self.top_ports])
    self.ports = f"{top_tcp_ports_str},U:{top_udp_ports_str}"
    self.top_ports = 0
command = ["masscan", "-v", "--open", "--banners", "--rate", self.rate,
           "-e", self.interface, "-oJ", self.masscan_output,
           "--ports", self.ports, "-iL", self.input().get("target_list").path]
return command
```

Returns `Except.error n` for `exit(n)`, else the command vector paired
with the post-call state. -/
def Masscan.program_args (m : Masscan) (top_tcp_ports top_udp_ports : List Nat)
    (target_list_path : String) : Except Nat (List String × Masscan) :=
  if m.ports ≠ "" ∧ m.top_ports ≠ 0 then
    Except.error 1
  else if m.ports = "" ∧ m.top_ports = 0 then
    Except.error 2
  else if m.top_ports < 0 then
    Except.error 3
  else
    let m' : Masscan :=
      if m.top_ports ≠ 0 then
        { m with
          ports := joinPorts (top_tcp_ports.take m.top_ports.toNat) ++ ",U:" ++
                   joinPorts (top_udp_ports.take m.top_ports.toNat),
          top_ports := 0 }
      else m
    Except.ok
      (["masscan", "-v", "--open", "--banners",
        "--rate", m'.rate,
        "-e", m'.interface,
        "-oJ", m'.masscan_output,
        "--ports", m'.ports,
        "-iL", target_list_path], m')

/-- The string the `top_ports` branch assigns to `self.ports`. -/
def resolvedTopSpec (top_tcp_ports top_udp_ports : List Nat) (n : Int) : String :=
  joinPorts (top_tcp_ports.take n.toNat) ++ ",U:" ++ joinPorts (top_udp_ports.take n.toNat)

/-- Closed form of `program_args` on the `top_ports` branch
(`ports` empty, `top_ports > 0`): the resolved spec is assigned to
`ports`, `top_ports` is reset to `0`, and the command is built from the
mutated state. -/
theorem program_args_top_eq (m : Masscan) (tcp udp : List Nat) (tlp : String)
    (h1 : 0 < m.top_ports) (h2 : m.ports = "") :
    m.program_args tcp udp tlp =
      Except.ok
        (["masscan", "-v", "--open", "--banners",
          "--rate", m.rate,
          "-e", m.interface,
          "-oJ", m.masscan_output,
          "--ports", resolvedTopSpec tcp udp m.top_ports,
          "-iL", tlp],
         { m with ports := resolvedTopSpec tcp udp m.top_ports, top_ports := 0 }) := by
  have hne : m.top_ports ≠ 0 := by omega
  have hnn : ¬ m.top_ports < 0 := by omega
  simp [Masscan.program_args, Masscan.masscan_output, resolvedTopSpec, h2, hne, hnn]

/-- Closed form of `program_args` on the pass-through branch
(`ports` non-empty, `top_ports = 0`): the state is untouched and `ports`
flows verbatim into the `--ports` value. -/
theorem program_args_explicit_eq (m : Masscan) (tcp udp : List Nat) (tlp : String)
    (h1 : m.ports ≠ "") (h2 : m.top_ports = 0) :
    m.program_args tcp udp tlp =
      Except.ok
        (["masscan", "-v", "--open", "--banners",
          "--rate", m.rate,
          "-e", m.interface,
          "-oJ", m.masscan_output,
          "--ports", m.ports,
          "-iL", tlp], m) := by
  simp [Masscan.program_args, Masscan.masscan_output, h1, h2]

/-- Error branch 1: `ports` non-empty and `top_ports` non-zero →
`exit(1)` (the conflict check, Python truthiness on both operands). -/
theorem program_args_error1_eq (m : Masscan) (tcp udp : List Nat) (tlp : String)
    (h1 : m.ports ≠ "") (h2 : m.top_ports ≠ 0) :
    m.program_args tcp udp tlp = Except.error 1 := by
  unfold Masscan.program_args
  rw [if_pos ⟨h1, h2⟩]

/-- Error branch 2: `ports` empty and `top_ports = 0` → `exit(2)`. -/
theorem program_args_error2_eq (m : Masscan) (tcp udp : List Nat) (tlp : String)
    (h1 : m.ports = "") (h2 : m.top_ports = 0) :
    m.program_args tcp udp tlp = Except.error 2 := by
  unfold Masscan.program_args
  rw [if_neg (by simp [h1]), if_pos ⟨h1, h2⟩]

/-- Error branch 3: `ports` empty and `top_ports < 0` → `exit(3)`. -/
theorem program_args_error3_eq (m : Masscan) (tcp udp : List Nat) (tlp : String)
    (h1 : m.ports = "") (h2 : m.top_ports < 0) :
    m.program_args tcp udp tlp = Except.error 3 := by
  have hne : m.top_ports ≠ 0 := by omega
  unfold Masscan.program_args
  rw [if_neg (by simp [h1]), if_neg (by simp [hne]), if_pos h2]

/-- The resolved spec always contains the literal `",U:"`, hence is
never the empty string. -/
theorem resolvedTopSpec_ne_empty (tcp udp : List Nat) (n : Int) :
    resolvedTopSpec tcp udp n ≠ "" := by
  unfold resolvedTopSpec
  intro h
  have hlen := congrArg String.length h
  have h3 : (",U:" : String).length = 3 := rfl
  simp [String.length_append, h3] at hlen

/-- C4: both `ports` non-empty and `top_ports > 0` → `exit(1)`. -/
theorem C4_conflict (m : Masscan) (tcp udp : List Nat) (tlp : String)
    (h1 : m.ports ≠ "") (h2 : 0 < m.top_ports) :
    m.program_args tcp udp tlp = Except.error 1 := by
  unfold Masscan.program_args
  rw [if_pos ⟨h1, by omega⟩]

/-- Witness for C4 at a concrete task. -/
theorem C4_conflict_witness :
    (Masscan.mk "1000" "tun0" "tesla" 5 "80").program_args [80, 443] [53] "tesla.ips" =
      Except.error 1 :=
  C4_conflict (Masscan.mk "1000" "tun0" "tesla" 5 "80") [80, 443] [53] "tesla.ips"
    (by decide) (by decide)

/-- C5: `ports` empty and `top_ports == 0` → `exit(2)`. -/
theorem C5_missing (m : Masscan) (tcp udp : List Nat) (tlp : String)
    (h1 : m.ports = "") (h2 : m.top_ports = 0) :
    m.program_args tcp udp tlp = Except.error 2 := by
  unfold Masscan.program_args
  rw [if_neg (by simp [h1]), if_pos ⟨h1, h2⟩]

/-- Witness for C5 at a concrete task. -/
theorem C5_missing_witness :
    (Masscan.mk "1000" "tun0" "tesla" 0 "").program_args [80] [53] "tesla.ips" =
      Except.error 2 :=
  C5_missing (Masscan.mk "1000" "tun0" "tesla" 0 "") [80] [53] "tesla.ips" rfl rfl

/-- C1: with `top_ports > 0` and `ports` empty, the resolver succeeds and
the `--ports` value is `"<tcp-list>,U:<udp-list>"` where the TCP list is
the comma-join of the first `top_ports` TCP-catalog entries (clamped by
the catalog length, in catalog order), likewise for UDP; the `",U:"`
separator is present in the string even when the UDP list is empty.  The
`take` conjuncts record that each segment has exactly
`min top_ports catalogLength` entries and that they are an initial
segment of the catalog. -/
theorem C1_top_ports_spec (m : Masscan) (tcp udp : List Nat) (tlp : String)
    (h1 : 0 < m.top_ports) (h2 : m.ports = "") :
    (∃ m', m.program_args tcp udp tlp =
      Except.ok
        (["masscan", "-v", "--open", "--banners", "--rate", m.rate, "-e", m.interface,
          "-oJ", m.masscan_output,
          "--ports",
          joinPorts (tcp.take m.top_ports.toNat) ++ ",U:" ++ joinPorts (udp.take m.top_ports.toNat),
          "-iL", tlp], m')) ∧
    (tcp.take m.top_ports.toNat).length = min m.top_ports.toNat tcp.length ∧
    (udp.take m.top_ports.toNat).length = min m.top_ports.toNat udp.length ∧
    tcp.take m.top_ports.toNat <+: tcp ∧
    udp.take m.top_ports.toNat <+: udp := by
  refine ⟨⟨_, program_args_top_eq m tcp udp tlp h1 h2⟩, ?_, ?_, ?_, ?_⟩
  · exact List.length_take _ _
  · exact List.length_take _ _
  · exact List.take_prefix _ _
  · exact List.take_prefix _ _

/-- Witness for C1: `top_ports = 3`, TCP catalog starting `80,443,22`,
UDP catalog `53,161,123` resolve to `"80,443,22,U:53,161,123"`. -/
theorem C1_top_ports_spec_witness :
    ∃ m', (Masscan.mk "1000" "tun0" "acme" 3 "").program_args
        [80, 443, 22, 21] [53, 161, 123] "acme.ips" =
      Except.ok
        (["masscan", "-v", "--open", "--banners", "--rate", "1000", "-e", "tun0",
          "-oJ", "masscan.acme.json", "--ports", "80,443,22,U:53,161,123",
          "-iL", "acme.ips"], m') :=
  (C1_top_ports_spec (Masscan.mk "1000" "tun0" "acme" 3 "")
    [80, 443, 22, 21] [53, 161, 123] "acme.ips" (by decide) rfl).1

/-- C2 counterexample: with `ports = "80"` (non-empty) and
`top_ports = -1`, the run exits with status 1 (the conflict check fires
first, because a negative `top_ports` is truthy), not with status 3 as
the claim states. -/
theorem C2_counterexample :
    (Masscan.mk "1000" "tun0" "tesla" (-1) "80").program_args [80] [53] "tesla.ips" =
        Except.error 1 ∧
      (Masscan.mk "1000" "tun0" "tesla" (-1) "80").program_args [80] [53] "tesla.ips" ≠
        Except.error 3 := by
  refine ⟨rfl, ?_⟩
  intro h
  simp [Masscan.program_args] at h

/-- C2 amended: with `top_ports < 0`, the run always fails, but the exit
status depends on `ports`: status 3 (`InvalidPortCountError`) when
`ports` is empty, status 1 (`ConflictingPortSpecError`) when `ports` is
non-empty — the conflict check precedes the negativity check and treats
any non-zero `top_ports` as set. -/
theorem C2_negative_count (m : Masscan) (tcp udp : List Nat) (tlp : String)
    (h : m.top_ports < 0) :
    m.program_args tcp udp tlp = Except.error (if m.ports = "" then 3 else 1) := by
  have hne : m.top_ports ≠ 0 := by omega
  by_cases hp : m.ports = ""
  · simp [Masscan.program_args, hp, hne, h]
  · simp [Masscan.program_args, hp, hne]

/-- Witness for C2 (amended) at a concrete task with empty `ports`. -/
theorem C2_negative_count_witness :
    (Masscan.mk "1000" "tun0" "tesla" (-2) "").program_args [80] [53] "tesla.ips" =
      Except.error 3 := by
  have h := C2_negative_count (Masscan.mk "1000" "tun0" "tesla" (-2) "") [80] [53]
    "tesla.ips" (by decide)
  simpa using h

/-- C3 counterexample: for `target_file = "acme"` the output path the
code computes is `"masscan.acme.json"`, not `"scan.acme.json"` as the
claim states. -/
theorem C3_counterexample :
    (Masscan.mk "1000" "tun0" "acme" 3 "").masscan_output = "masscan.acme.json" ∧
      (Masscan.mk "1000" "tun0" "acme" 3 "").masscan_output ≠ "scan.acme.json" := by
  exact ⟨rfl, by decide⟩

/-- C3 amended: the output path is a pure function of `target_file` —
equal identifiers yield equal paths — and for `target_file = "acme"` it
is `"masscan.acme.json"`. -/
theorem C3_output_path (m₁ m₂ : Masscan) (h : m₁.target_file = m₂.target_file) :
    m₁.masscan_output = m₂.masscan_output ∧
      (m₁.target_file = "acme" → m₁.masscan_output = "masscan.acme.json") := by
  constructor
  · simp [Masscan.masscan_output, h]
  · intro ha
    simp [Masscan.masscan_output, ha]

/-- Witness for C3 (amended): two tasks differing in every field but
`target_file = "acme"` share the path `"masscan.acme.json"`. -/
theorem C3_output_path_witness :
    (Masscan.mk "1000" "tun0" "acme" 3 "").masscan_output =
        (Masscan.mk "9999" "eth0" "acme" 0 "80,443").masscan_output ∧
      ((Masscan.mk "1000" "tun0" "acme" 3 "").target_file = "acme" →
        (Masscan.mk "1000" "tun0" "acme" 3 "").masscan_output = "masscan.acme.json") :=
  C3_output_path (Masscan.mk "1000" "tun0" "acme" 3 "")
    (Masscan.mk "9999" "eth0" "acme" 0 "80,443") rfl

/-- C6: with `ports` non-empty and `top_ports = 0`, the resolver passes
`ports` through unchanged: the task state is untouched and the `--ports`
value of the command is exactly the original `ports` string. -/
theorem C6_pass_through (m : Masscan) (tcp udp : List Nat) (tlp : String)
    (h1 : m.ports ≠ "") (h2 : m.top_ports = 0) :
    m.program_args tcp udp tlp =
      Except.ok
        (["masscan", "-v", "--open", "--banners", "--rate", m.rate, "-e", m.interface,
          "-oJ", m.masscan_output, "--ports", m.ports, "-iL", tlp], m) :=
  program_args_explicit_eq m tcp udp tlp h1 h2

/-- Witness for C6: `ports = "80,443"`, `top_ports = 0` resolve to the
unchanged string `"80,443"`. -/
theorem C6_pass_through_witness :
    (Masscan.mk "1000" "tun0" "tesla" 0 "80,443").program_args [80] [53] "tesla.ips" =
      Except.ok
        (["masscan", "-v", "--open", "--banners", "--rate", "1000", "-e", "tun0",
          "-oJ", "masscan.tesla.json", "--ports", "80,443", "-iL", "tesla.ips"],
         Masscan.mk "1000" "tun0" "tesla" 0 "80,443") :=
  C6_pass_through (Masscan.mk "1000" "tun0" "tesla" 0 "80,443") [80] [53] "tesla.ips"
    (by decide) rfl

/-- C7: the run exits with status `c` exactly when one of the three
configuration violations holds, each violation kind mapped to its own
code — 1 for a conflicting spec, 2 for a missing spec, 3 for a negative
count (with `ports` empty; otherwise the conflict code wins) — and on
every error path the status is non-zero and no command vector is
produced. -/
theorem C7_error_codes (m : Masscan) (tcp udp : List Nat) (tlp : String) (c : Nat) :
    (m.program_args tcp udp tlp = Except.error c ↔
      ((c = 1 ∧ m.ports ≠ "" ∧ m.top_ports ≠ 0) ∨
       (c = 2 ∧ m.ports = "" ∧ m.top_ports = 0) ∨
       (c = 3 ∧ m.ports = "" ∧ m.top_ports < 0))) ∧
    (m.program_args tcp udp tlp = Except.error c →
      c ≠ 0 ∧ ∀ cmd m', m.program_args tcp udp tlp ≠ Except.ok (cmd, m')) := by
  by_cases hp : m.ports = "" <;> by_cases ht : m.top_ports = 0
  · rw [program_args_error2_eq m tcp udp tlp hp ht]
    refine ⟨⟨fun h => Or.inr (Or.inl ⟨by injection h with h'; omega, hp, ht⟩), ?_⟩,
      fun h => ?_⟩
    · rintro (⟨_, hne, _⟩ | ⟨hc, _, _⟩ | ⟨_, _, hlt⟩)
      · exact absurd hp hne
      · rw [hc]
      · omega
    · exact ⟨by injection h with h'; omega, fun cmd m' hcontra => by injection hcontra⟩
  · rcases lt_or_gt_of_ne ht with hlt | hgt
    · rw [program_args_error3_eq m tcp udp tlp hp hlt]
      refine ⟨⟨fun h => Or.inr (Or.inr ⟨by injection h with h'; omega, hp, hlt⟩), ?_⟩,
        fun h => ?_⟩
      · rintro (⟨_, hne, _⟩ | ⟨_, _, hz⟩ | ⟨hc, _, _⟩)
        · exact absurd hp hne
        · omega
        · rw [hc]
      · exact ⟨by injection h with h'; omega, fun cmd m' hcontra => by injection hcontra⟩
    · rw [program_args_top_eq m tcp udp tlp hgt hp]
      refine ⟨⟨fun h => by injection h, ?_⟩, fun h => by injection h⟩
      rintro (⟨_, hne, _⟩ | ⟨_, _, hz⟩ | ⟨_, _, hlt⟩)
      · exact absurd hp hne
      · omega
      · omega
  · rw [program_args_explicit_eq m tcp udp tlp hp ht]
    refine ⟨⟨fun h => by injection h, ?_⟩, fun h => by injection h⟩
    rintro (⟨_, _, hne⟩ | ⟨_, hq, _⟩ | ⟨_, hq, _⟩)
    · exact absurd ht hne
    · exact absurd hq hp
    · exact absurd hq hp
  · rw [program_args_error1_eq m tcp udp tlp hp ht]
    refine ⟨⟨fun h => Or.inl ⟨by injection h with h'; omega, hp, ht⟩, ?_⟩, fun h => ?_⟩
    · rintro (⟨hc, _, _⟩ | ⟨_, hq, _⟩ | ⟨_, hq, _⟩)
      · rw [hc]
      · exact absurd hq hp
      · exact absurd hq hp
    · exact ⟨by injection h with h'; omega, fun cmd m' hcontra => by injection hcontra⟩

/-- Inversion: a successful `program_args` run came from one of the two
non-error branches, with the corresponding state and command vector. -/
theorem program_args_ok_inv (m : Masscan) (tcp udp : List Nat) (tlp : String)
    (cmd : List String) (m' : Masscan)
    (h : m.program_args tcp udp tlp = Except.ok (cmd, m')) :
    (m.ports ≠ "" ∧ m.top_ports = 0 ∧ m' = m ∧
      cmd = ["masscan", "-v", "--open", "--banners", "--rate", m.rate, "-e", m.interface,
             "-oJ", m.masscan_output, "--ports", m.ports, "-iL", tlp]) ∨
    (m.ports = "" ∧ 0 < m.top_ports ∧
      m' = { m with ports := resolvedTopSpec tcp udp m.top_ports, top_ports := 0 } ∧
      cmd = ["masscan", "-v", "--open", "--banners", "--rate", m.rate, "-e", m.interface,
             "-oJ", m.masscan_output, "--ports", resolvedTopSpec tcp udp m.top_ports,
             "-iL", tlp]) := by
  by_cases hp : m.ports = "" <;> by_cases ht : m.top_ports = 0
  · rw [program_args_error2_eq m tcp udp tlp hp ht] at h
    exact absurd h (by simp)
  · rcases lt_or_gt_of_ne ht with hlt | hgt
    · rw [program_args_error3_eq m tcp udp tlp hp hlt] at h
      exact absurd h (by simp)
    · right
      rw [program_args_top_eq m tcp udp tlp hgt hp] at h
      simp only [Except.ok.injEq, Prod.mk.injEq] at h
      exact ⟨hp, hgt, h.2.symm, h.1.symm⟩
  · left
    rw [program_args_explicit_eq m tcp udp tlp hp ht] at h
    simp only [Except.ok.injEq, Prod.mk.injEq] at h
    exact ⟨hp, ht, h.2.symm, h.1.symm⟩
  · rw [program_args_error1_eq m tcp udp tlp hp ht] at h
    exact absurd h (by simp)

/-- C8: a successful `program_args` call is repeatable — calling it again
on the post-call state (after the first call resolved `top_ports` into
`ports`) returns the same argument vector and the same state — and in
the vector each value-bearing flag (`--rate`, `-e`, `-oJ`, `--ports`,
`-iL`) sits immediately before its single value element. -/
theorem C8_deterministic (m : Masscan) (tcp udp : List Nat) (tlp : String)
    (cmd : List String) (m' : Masscan)
    (h : m.program_args tcp udp tlp = Except.ok (cmd, m')) :
    m'.program_args tcp udp tlp = Except.ok (cmd, m') ∧
      cmd[4]? = some "--rate" ∧ cmd[5]? = some m.rate ∧
      cmd[6]? = some "-e" ∧ cmd[7]? = some m.interface ∧
      cmd[8]? = some "-oJ" ∧ cmd[9]? = some m.masscan_output ∧
      cmd[10]? = some "--ports" ∧ cmd[11]? = some m'.ports ∧
      cmd[12]? = some "-iL" ∧ cmd[13]? = some tlp := by
  rcases program_args_ok_inv m tcp udp tlp cmd m' h with
    ⟨hp, ht, hm, hcmd⟩ | ⟨hp, ht, hm, hcmd⟩
  · subst hcmd
    subst hm
    exact ⟨program_args_explicit_eq _ tcp udp tlp hp ht,
      rfl, rfl, rfl, rfl, rfl, rfl, rfl, rfl, rfl, rfl⟩
  · subst hcmd
    subst hm
    exact ⟨program_args_explicit_eq _ tcp udp tlp
        (resolvedTopSpec_ne_empty tcp udp m.top_ports) rfl,
      rfl, rfl, rfl, rfl, rfl, rfl, rfl, rfl, rfl, rfl⟩

/-- Witness for C8 on the pass-through branch: the second call on the
returned state repeats the same vector. -/
theorem C8_deterministic_witness :
    (Masscan.mk "1000" "tun0" "tesla" 0 "80,443").program_args [80] [53] "tesla.ips" =
      Except.ok
        (["masscan", "-v", "--open", "--banners", "--rate", "1000", "-e", "tun0",
          "-oJ", "masscan.tesla.json", "--ports", "80,443", "-iL", "tesla.ips"],
         Masscan.mk "1000" "tun0" "tesla" 0 "80,443") :=
  (C8_deterministic (Masscan.mk "1000" "tun0" "tesla" 0 "80,443") [80] [53] "tesla.ips"
    ["masscan", "-v", "--open", "--banners", "--rate", "1000", "-e", "tun0",
     "-oJ", "masscan.tesla.json", "--ports", "80,443", "-iL", "tesla.ips"]
    (Masscan.mk "1000" "tun0" "tesla" 0 "80,443") rfl).1

/-- C9: after a successful `top_ports` resolution the task carries
exactly one port specification: `top_ports` is reset to `0`, `ports`
holds the (non-empty) resolved expression, so the "both set" conflict
condition can no longer hold. -/
theorem C9_resolved_invariant (m : Masscan) (tcp udp : List Nat) (tlp : String)
    (h1 : 0 < m.top_ports) (h2 : m.ports = "") :
    ∃ cmd m', m.program_args tcp udp tlp = Except.ok (cmd, m') ∧
      m'.top_ports = 0 ∧
      m'.ports = resolvedTopSpec tcp udp m.top_ports ∧
      m'.ports ≠ "" ∧
      ¬(m'.ports ≠ "" ∧ m'.top_ports ≠ 0) := by
  refine ⟨_, _, program_args_top_eq m tcp udp tlp h1 h2, rfl, rfl,
    resolvedTopSpec_ne_empty tcp udp m.top_ports, ?_⟩
  rintro ⟨-, hne⟩
  exact hne rfl

/-- Witness for C9 at a concrete task with `top_ports = 2`. -/
theorem C9_resolved_invariant_witness :
    ∃ cmd m',
      (Masscan.mk "1000" "tun0" "tesla" 2 "").program_args [80, 443, 22] [53, 161]
          "tesla.ips" = Except.ok (cmd, m') ∧
        m'.top_ports = 0 ∧
        m'.ports = resolvedTopSpec [80, 443, 22] [53, 161] 2 ∧
        m'.ports ≠ "" ∧
        ¬(m'.ports ≠ "" ∧ m'.top_ports ≠ 0) :=
  C9_resolved_invariant (Masscan.mk "1000" "tun0" "tesla" 2 "") [80, 443, 22] [53, 161]
    "tesla.ips" (by decide) rfl

/-- C10: every successful run returns the 14-element vector
`["masscan", "-v", "--open", "--banners", "--rate", rate, "-e",
interface, "-oJ", outputPath, "--ports", resolvedPorts, "-iL",
targetListPath]`, with `rate` and `interface` passed through verbatim. -/
theorem C10_command_shape (m : Masscan) (tcp udp : List Nat) (tlp : String)
    (cmd : List String) (m' : Masscan)
    (h : m.program_args tcp udp tlp = Except.ok (cmd, m')) :
    cmd = ["masscan", "-v", "--open", "--banners", "--rate", m.rate, "-e", m.interface,
           "-oJ", m.masscan_output, "--ports", m'.ports, "-iL", tlp] ∧
      cmd.length = 14 := by
  rcases program_args_ok_inv m tcp udp tlp cmd m' h with
    ⟨hp, ht, hm, hcmd⟩ | ⟨hp, ht, hm, hcmd⟩
  · subst hm
    subst hcmd
    exact ⟨rfl, rfl⟩
  · subst hm
    subst hcmd
    exact ⟨rfl, rfl⟩

/-- Witness for C10 on the `top_ports` branch at a concrete task. -/
theorem C10_command_shape_witness :
    ["masscan", "-v", "--open", "--banners", "--rate", "1000", "-e", "tun0",
     "-oJ", "masscan.tesla.json", "--ports", "80,U:53", "-iL", "tesla.ips"] =
      ["masscan", "-v", "--open", "--banners",
       "--rate", (Masscan.mk "1000" "tun0" "tesla" 1 "").rate,
       "-e", (Masscan.mk "1000" "tun0" "tesla" 1 "").interface,
       "-oJ", (Masscan.mk "1000" "tun0" "tesla" 1 "").masscan_output,
       "--ports",
       (Masscan.mk "1000" "tun0" "tesla" 0 "80,U:53").ports,
       "-iL", "tesla.ips"] ∧
    (["masscan", "-v", "--open", "--banners", "--rate", "1000", "-e", "tun0",
      "-oJ", "masscan.tesla.json", "--ports", "80,U:53", "-iL", "tesla.ips"] :
        List String).length = 14 :=
  C10_command_shape (Masscan.mk "1000" "tun0" "tesla" 1 "") [80, 443] [53, 161]
    "tesla.ips"
    ["masscan", "-v", "--open", "--banners", "--rate", "1000", "-e", "tun0",
     "-oJ", "masscan.tesla.json", "--ports", "80,U:53", "-iL", "tesla.ips"]
    (Masscan.mk "1000" "tun0" "tesla" 0 "80,U:53") rfl

end ReconPipeline
